import Mathlib

/-!
Verification of the RTP demultiplexer (`webrtc/call/rtp_demuxer.cc`).

The demuxer state is embedded shallowly:
* `ssrc_sinks_` / `rsid_sinks_` (`std::multimap`) become lists of key/sink
  pairs; `equal_range` becomes a filter by key, `emplace` appends (a C++
  multimap keeps insertion order within one key, and the code only ever
  iterates one key's range at a time, so a list models the observable
  behaviour exactly).
* `processed_ssrcs_` (`std::set<uint32_t>`) becomes a `Finset Nat`.
* `rsid_resolution_observers_` (`std::vector`) becomes a list.
* Sinks and observers are non-owned pointers compared by identity; they are
  modelled as natural-number handles.
* `RTC_DCHECK`-guarded operations return `Option`: `none` models the fatal
  assertion of a debug build.
* Side effects (sink delivery, observer notification, the one-shot capacity
  warning) are recorded in an ordered event trace.
-/

set_option autoImplicit false

namespace Webrtc

/-- A sink handle (`RtpPacketSinkInterface*`, non-owned, compared by
identity). -/
abbrev Sink := Nat

/-- An observer handle (`RsidResolutionObserver*`, non-owned, compared by
identity). -/
abbrev Observer := Nat

/-- The packet interface used by the demuxer: `packet.Ssrc()` and
`packet.GetExtension<RtpStreamId>(&rsid)`, the latter modelled as an optional
RSID tag (`some rsid` when the extension is present and well-formed). -/
structure RtpPacketReceived where
  ssrc : Nat
  rsid : Option String
deriving DecidableEq, Repr

/-- Modelled from the spec: `StreamId::IsLegalName` (declared in
`rtp_header_extensions.h`, not under `src/`): the stream-id grammar —
non-empty, bounded length, restricted (alphanumeric) character set. -/
def StreamId.IsLegalName (rsid : String) : Bool :=
  decide (1 ≤ rsid.length) && decide (rsid.length ≤ 16)
    && rsid.data.all (fun c => c.isAlphanum)

/-- Modelled from the spec: `MultimapAssociationExists` (helper in
`rtp_rtcp_demuxer_helper.h`, not under `src/`): whether the multimap holds
the exact (key, value) pair. -/
def MultimapAssociationExists {α : Type} [DecidableEq α]
    (m : List (α × Sink)) (key : α) (val : Sink) : Prop :=
  (key, val) ∈ m

instance {α : Type} [DecidableEq α] (m : List (α × Sink)) (key : α)
    (val : Sink) : Decidable (MultimapAssociationExists m key val) :=
  decidable_of_iff ((key, val) ∈ m) Iff.rfl

/-- Modelled from the spec: `RemoveFromMultimapByValue` (helper in
`rtp_rtcp_demuxer_helper.h`, not under `src/`): erase every entry whose
mapped value equals `sink` and return how many entries were erased. -/
def RemoveFromMultimapByValue {α : Type} [DecidableEq α]
    (m : List (α × Sink)) (sink : Sink) : List (α × Sink) × Nat :=
  (m.filter (fun e => !(e.2 == sink)), (m.filter (fun e => e.2 == sink)).length)

/-- `kMaxProcessedSsrcs = 1000` — capacity of the processed-SSRC cache. -/
def kMaxProcessedSsrcs : Nat := 1000

/-- The member state of `RtpDemuxer`. -/
structure RtpDemuxer where
  ssrc_sinks : List (Nat × Sink)
  rsid_sinks : List (String × Sink)
  processed_ssrcs : Finset Nat
  rsid_resolution_observers : List Observer
  logged_max_processed_ssrcs_exceeded : Bool
deriving DecidableEq

/-- `RtpDemuxer::RtpDemuxer() = default` — all containers empty, the
warn-once flag unset. -/
def RtpDemuxer.initial : RtpDemuxer :=
  { ssrc_sinks := []
    rsid_sinks := []
    processed_ssrcs := ∅
    rsid_resolution_observers := []
    logged_max_processed_ssrcs_exceeded := false }

/-- Observable side effects of one call, in execution order. -/
inductive Event where
  /-- `RecordSsrcToSinkAssociation(ssrc, sink)` was invoked during RSID
  resolution. -/
  | assocRecorded (ssrc : Nat) (sink : Sink)
  /-- `observer->OnRsidResolved(rsid, ssrc)` was invoked. -/
  | rsidResolved (o : Observer) (rsid : String) (ssrc : Nat)
  /-- `rsid_sinks_.erase(...)` removed the whole range keyed by `rsid`. -/
  | rsidErased (rsid : String)
  /-- `sink->OnRtpPacket(packet)` was invoked. -/
  | packetDelivered (sink : Sink)
  /-- The one-time `kMaxProcessedSsrcs`-exceeded warning was logged. -/
  | capacityWarning
deriving DecidableEq, Repr

namespace RtpDemuxer

/-- `RtpDemuxer::RecordSsrcToSinkAssociation`: de-duplicating insert into
`ssrc_sinks_`. -/
def RecordSsrcToSinkAssociation (d : RtpDemuxer) (ssrc : Nat) (sink : Sink) :
    RtpDemuxer :=
  if MultimapAssociationExists d.ssrc_sinks ssrc sink then d
  else { d with ssrc_sinks := d.ssrc_sinks ++ [(ssrc, sink)] }

/-- `RtpDemuxer::AddSink(uint32_t ssrc, ...)`. -/
def AddSinkSsrc (d : RtpDemuxer) (ssrc : Nat) (sink : Sink) : RtpDemuxer :=
  d.RecordSsrcToSinkAssociation ssrc sink

/-- `RtpDemuxer::AddSink(const std::string& rsid, ...)`; `none` models a
failed `RTC_DCHECK` (illegal RSID or duplicate (rsid, sink) pair). -/
def AddSinkRsid (d : RtpDemuxer) (rsid : String) (sink : Sink) :
    Option RtpDemuxer :=
  if StreamId.IsLegalName rsid = true ∧
      ¬ MultimapAssociationExists d.rsid_sinks rsid sink then
    some { d with
            rsid_sinks := d.rsid_sinks ++ [(rsid, sink)]
            processed_ssrcs := ∅ }
  else none

/-- `RtpDemuxer::RemoveSink`: erase the sink from both multimaps, return
whether anything was erased. -/
def RemoveSink (d : RtpDemuxer) (sink : Sink) : RtpDemuxer × Bool :=
  let r1 := RemoveFromMultimapByValue d.ssrc_sinks sink
  let r2 := RemoveFromMultimapByValue d.rsid_sinks sink
  ({ d with ssrc_sinks := r1.1, rsid_sinks := r2.1 },
   decide (r1.2 + r2.2 > 0))

/-- `RtpDemuxer::RegisterRsidResolutionObserver`; `none` models the
`RTC_DCHECK` against duplicate registration (`ContainerHasKey`, a helper in
`rtp_rtcp_demuxer_helper.h` modelled from the spec as list membership). -/
def RegisterRsidResolutionObserver (d : RtpDemuxer) (o : Observer) :
    Option RtpDemuxer :=
  if o ∈ d.rsid_resolution_observers then none
  else
    some { d with
            rsid_resolution_observers := d.rsid_resolution_observers ++ [o]
            processed_ssrcs := ∅ }

/-- `RtpDemuxer::DeregisterRsidResolutionObserver`; `none` models the
`RTC_DCHECK` that `std::find` located the observer; `erase` removes the
first (with the duplicate-free registration contract, the only)
occurrence. -/
def DeregisterRsidResolutionObserver (d : RtpDemuxer) (o : Observer) :
    Option RtpDemuxer :=
  if o ∈ d.rsid_resolution_observers then
    some { d with
            rsid_resolution_observers := d.rsid_resolution_observers.erase o }
  else none

/-- `RtpDemuxer::NotifyObserversOfRsidResolution`: call `OnRsidResolved`
on every registered observer, in registration order. -/
def NotifyObserversOfRsidResolution (d : RtpDemuxer) (rsid : String)
    (ssrc : Nat) : List Event :=
  d.rsid_resolution_observers.map (fun o => Event.rsidResolved o rsid ssrc)

/-- The loop body of `ResolveRsidToSsrcAssociations`: record an SSRC
association for every sink of the range. -/
def recordAll (d : RtpDemuxer) (ssrc : Nat) (range : List (String × Sink)) :
    RtpDemuxer :=
  range.foldl (fun acc e => acc.RecordSsrcToSinkAssociation ssrc e.2) d

/-- `RtpDemuxer::ResolveRsidToSsrcAssociations`: if the packet carries an
RSID, promote every sink registered under it to an SSRC association, notify
observers, then erase the RSID's range. -/
def ResolveRsidToSsrcAssociations (d : RtpDemuxer)
    (packet : RtpPacketReceived) : RtpDemuxer × List Event :=
  match packet.rsid with
  | none => (d, [])
  | some rsid =>
      let range := d.rsid_sinks.filter (fun e => e.1 == rsid)
      let d1 := d.recordAll packet.ssrc range
      let d2 := { d1 with
                   rsid_sinks := d1.rsid_sinks.filter (fun e => !(e.1 == rsid)) }
      (d2,
       range.map (fun e => Event.assocRecorded packet.ssrc e.2)
         ++ d1.NotifyObserversOfRsidResolution rsid packet.ssrc
         ++ [Event.rsidErased rsid])

/-- `RtpDemuxer::ResolveAssociations`: skip when the SSRC is cached;
otherwise resolve, then insert into the bounded cache or warn once. -/
def ResolveAssociations (d : RtpDemuxer) (packet : RtpPacketReceived) :
    RtpDemuxer × List Event :=
  if packet.ssrc ∈ d.processed_ssrcs then (d, [])
  else
    let r := d.ResolveRsidToSsrcAssociations packet
    if r.1.processed_ssrcs.card < kMaxProcessedSsrcs then
      ({ r.1 with processed_ssrcs := insert packet.ssrc r.1.processed_ssrcs },
       r.2)
    else if !r.1.logged_max_processed_ssrcs_exceeded then
      ({ r.1 with logged_max_processed_ssrcs_exceeded := true },
       r.2 ++ [Event.capacityWarning])
    else
      (r.1, r.2)

/-- Result of `RtpDemuxer::OnRtpPacket`: successor state, ordered event
trace, and the return value. -/
structure OnPacketResult where
  st : RtpDemuxer
  events : List Event
  ok : Bool
deriving DecidableEq

/-- `RtpDemuxer::OnRtpPacket`: resolve, deliver to every sink of
`ssrc_sinks_.equal_range(packet.Ssrc())`, return whether the range was
non-empty. -/
def OnRtpPacket (d : RtpDemuxer) (packet : RtpPacketReceived) :
    OnPacketResult :=
  let r := d.ResolveAssociations packet
  let range := r.1.ssrc_sinks.filter (fun e => e.1 == packet.ssrc)
  { st := r.1
    events := r.2 ++ range.map (fun e => Event.packetDelivered e.2)
    ok := !range.isEmpty }

end RtpDemuxer

/-- One call of the public mutating API. -/
inductive Op where
  | addSinkSsrc (ssrc : Nat) (sink : Sink)
  | addSinkRsid (rsid : String) (sink : Sink)
  | removeSink (sink : Sink)
  | onRtpPacket (packet : RtpPacketReceived)
  | registerObserver (o : Observer)
  | deregisterObserver (o : Observer)
deriving DecidableEq

/-- Apply one public call; `none` models a fatal `RTC_DCHECK`. -/
def applyOp (d : RtpDemuxer) : Op → Option RtpDemuxer
  | Op.addSinkSsrc ssrc sink => some (d.AddSinkSsrc ssrc sink)
  | Op.addSinkRsid rsid sink => d.AddSinkRsid rsid sink
  | Op.removeSink sink => some (d.RemoveSink sink).1
  | Op.onRtpPacket packet => some (d.OnRtpPacket packet).st
  | Op.registerObserver o => d.RegisterRsidResolutionObserver o
  | Op.deregisterObserver o => d.DeregisterRsidResolutionObserver o

/-- States reachable from a fresh demuxer by successful public calls. -/
inductive Reachable : RtpDemuxer → Prop where
  | init : Reachable RtpDemuxer.initial
  | step {d d' : RtpDemuxer} {op : Op} (h : Reachable d)
      (hstep : applyOp d op = some d') : Reachable d'

/-! ### Basic lemmas about the de-duplicating SSRC insert -/

namespace RtpDemuxer

theorem record_rsid_sinks (d : RtpDemuxer) (s : Nat) (k : Sink) :
    (d.RecordSsrcToSinkAssociation s k).rsid_sinks = d.rsid_sinks := by
  unfold RecordSsrcToSinkAssociation; split <;> rfl

theorem record_processed (d : RtpDemuxer) (s : Nat) (k : Sink) :
    (d.RecordSsrcToSinkAssociation s k).processed_ssrcs = d.processed_ssrcs := by
  unfold RecordSsrcToSinkAssociation; split <;> rfl

theorem record_observers (d : RtpDemuxer) (s : Nat) (k : Sink) :
    (d.RecordSsrcToSinkAssociation s k).rsid_resolution_observers =
      d.rsid_resolution_observers := by
  unfold RecordSsrcToSinkAssociation; split <;> rfl

theorem record_flag (d : RtpDemuxer) (s : Nat) (k : Sink) :
    (d.RecordSsrcToSinkAssociation s k).logged_max_processed_ssrcs_exceeded =
      d.logged_max_processed_ssrcs_exceeded := by
  unfold RecordSsrcToSinkAssociation; split <;> rfl

theorem record_mem_self (d : RtpDemuxer) (s : Nat) (k : Sink) :
    (s, k) ∈ (d.RecordSsrcToSinkAssociation s k).ssrc_sinks := by
  unfold RecordSsrcToSinkAssociation MultimapAssociationExists
  split
  · assumption
  · simp

theorem record_mono {d : RtpDemuxer} {x : Nat × Sink} (s : Nat) (k : Sink)
    (h : x ∈ d.ssrc_sinks) :
    x ∈ (d.RecordSsrcToSinkAssociation s k).ssrc_sinks := by
  unfold RecordSsrcToSinkAssociation
  split
  · exact h
  · simp [h]

theorem record_mem_elim {d : RtpDemuxer} {x : Nat × Sink} {s : Nat} {k : Sink}
    (h : x ∈ (d.RecordSsrcToSinkAssociation s k).ssrc_sinks) :
    x ∈ d.ssrc_sinks ∨ x = (s, k) := by
  unfold RecordSsrcToSinkAssociation at h
  split at h
  · exact Or.inl h
  · simpa using h

theorem record_of_mem (d : RtpDemuxer) {s : Nat} {k : Sink}
    (h : MultimapAssociationExists d.ssrc_sinks s k) :
    d.RecordSsrcToSinkAssociation s k = d := by
  unfold RecordSsrcToSinkAssociation
  simp [h]

theorem record_of_not_mem (d : RtpDemuxer) {s : Nat} {k : Sink}
    (h : ¬ MultimapAssociationExists d.ssrc_sinks s k) :
    d.RecordSsrcToSinkAssociation s k =
      { d with ssrc_sinks := d.ssrc_sinks ++ [(s, k)] } := by
  unfold RecordSsrcToSinkAssociation
  simp [h]

/-! ### Lemmas about the resolution loop `recordAll` -/

theorem recordAll_rsid_sinks (d : RtpDemuxer) (s : Nat)
    (range : List (String × Sink)) :
    (d.recordAll s range).rsid_sinks = d.rsid_sinks := by
  induction range generalizing d with
  | nil => rfl
  | cons e tl ih =>
      simpa [recordAll, record_rsid_sinks] using
        (ih (d.RecordSsrcToSinkAssociation s e.2)).trans
          (record_rsid_sinks d s e.2)

theorem recordAll_processed (d : RtpDemuxer) (s : Nat)
    (range : List (String × Sink)) :
    (d.recordAll s range).processed_ssrcs = d.processed_ssrcs := by
  induction range generalizing d with
  | nil => rfl
  | cons e tl ih =>
      simpa [recordAll, record_processed] using
        (ih (d.RecordSsrcToSinkAssociation s e.2)).trans
          (record_processed d s e.2)

theorem recordAll_observers (d : RtpDemuxer) (s : Nat)
    (range : List (String × Sink)) :
    (d.recordAll s range).rsid_resolution_observers =
      d.rsid_resolution_observers := by
  induction range generalizing d with
  | nil => rfl
  | cons e tl ih =>
      simpa [recordAll, record_observers] using
        (ih (d.RecordSsrcToSinkAssociation s e.2)).trans
          (record_observers d s e.2)

theorem recordAll_flag (d : RtpDemuxer) (s : Nat)
    (range : List (String × Sink)) :
    (d.recordAll s range).logged_max_processed_ssrcs_exceeded =
      d.logged_max_processed_ssrcs_exceeded := by
  induction range generalizing d with
  | nil => rfl
  | cons e tl ih =>
      simpa [recordAll, record_flag] using
        (ih (d.RecordSsrcToSinkAssociation s e.2)).trans
          (record_flag d s e.2)

theorem recordAll_mono {d : RtpDemuxer} {x : Nat × Sink} (s : Nat)
    (range : List (String × Sink)) (h : x ∈ d.ssrc_sinks) :
    x ∈ (d.recordAll s range).ssrc_sinks := by
  induction range generalizing d with
  | nil => exact h
  | cons e tl ih => exact ih (record_mono s e.2 h)

theorem recordAll_mem {d : RtpDemuxer} {e : String × Sink} (s : Nat)
    {range : List (String × Sink)} (h : e ∈ range) :
    (s, e.2) ∈ (d.recordAll s range).ssrc_sinks := by
  induction range generalizing d with
  | nil => cases h
  | cons hd tl ih =>
      rcases List.mem_cons.mp h with h1 | h2
      · subst h1
        exact recordAll_mono s tl (record_mem_self d s e.2)
      · exact ih h2

theorem recordAll_mem_elim {d : RtpDemuxer} {x : Nat × Sink} {s : Nat}
    {range : List (String × Sink)}
    (h : x ∈ (d.recordAll s range).ssrc_sinks) :
    x ∈ d.ssrc_sinks ∨ (x.1 = s ∧ ∃ e ∈ range, x.2 = e.2) := by
  induction range generalizing d with
  | nil => exact Or.inl h
  | cons hd tl ih =>
      rcases ih h with h1 | h2
      · rcases record_mem_elim h1 with h3 | h4
        · exact Or.inl h3
        · subst h4
          exact Or.inr ⟨rfl, hd, List.mem_cons_self hd tl, rfl⟩
      · exact Or.inr ⟨h2.1, by
          rcases h2.2 with ⟨e, he, hx⟩
          exact ⟨e, List.mem_cons_of_mem hd he, hx⟩⟩

/-! ### Lemmas about RSID resolution -/

theorem resolveRsid_none (d : RtpDemuxer) (p : RtpPacketReceived)
    (h : p.rsid = none) : d.ResolveRsidToSsrcAssociations p = (d, []) := by
  unfold ResolveRsidToSsrcAssociations
  rw [h]

theorem resolveRsid_some_fst (d : RtpDemuxer) (p : RtpPacketReceived)
    (R : String) (h : p.rsid = some R) :
    (d.ResolveRsidToSsrcAssociations p).1 =
      { d.recordAll p.ssrc (d.rsid_sinks.filter (fun e => e.1 == R)) with
          rsid_sinks := d.rsid_sinks.filter (fun e => !(e.1 == R)) } := by
  unfold ResolveRsidToSsrcAssociations
  rw [h]
  simp [recordAll_rsid_sinks]

theorem resolveRsid_some_snd (d : RtpDemuxer) (p : RtpPacketReceived)
    (R : String) (h : p.rsid = some R) :
    (d.ResolveRsidToSsrcAssociations p).2 =
      (d.rsid_sinks.filter (fun e => e.1 == R)).map
          (fun e => Event.assocRecorded p.ssrc e.2)
        ++ d.rsid_resolution_observers.map
             (fun o => Event.rsidResolved o R p.ssrc)
        ++ [Event.rsidErased R] := by
  unfold ResolveRsidToSsrcAssociations NotifyObserversOfRsidResolution
  rw [h]
  simp [recordAll_observers]

theorem resolveRsid_ssrc_sinks_mono {d : RtpDemuxer} {x : Nat × Sink}
    (p : RtpPacketReceived) (h : x ∈ d.ssrc_sinks) :
    x ∈ (d.ResolveRsidToSsrcAssociations p).1.ssrc_sinks := by
  unfold ResolveRsidToSsrcAssociations
  match hr : p.rsid with
  | none => exact h
  | some R => exact recordAll_mono p.ssrc _ h

theorem resolveRsid_processed (d : RtpDemuxer) (p : RtpPacketReceived) :
    (d.ResolveRsidToSsrcAssociations p).1.processed_ssrcs =
      d.processed_ssrcs := by
  unfold ResolveRsidToSsrcAssociations
  match hr : p.rsid with
  | none => rfl
  | some R => simp [recordAll_processed]

theorem resolveRsid_observers (d : RtpDemuxer) (p : RtpPacketReceived) :
    (d.ResolveRsidToSsrcAssociations p).1.rsid_resolution_observers =
      d.rsid_resolution_observers := by
  unfold ResolveRsidToSsrcAssociations
  match hr : p.rsid with
  | none => rfl
  | some R => simp [recordAll_observers]

theorem resolveRsid_flag (d : RtpDemuxer) (p : RtpPacketReceived) :
    (d.ResolveRsidToSsrcAssociations p).1.logged_max_processed_ssrcs_exceeded =
      d.logged_max_processed_ssrcs_exceeded := by
  unfold ResolveRsidToSsrcAssociations
  match hr : p.rsid with
  | none => rfl
  | some R => simp [recordAll_flag]

/-! ### Lemmas about `ResolveAssociations` -/

theorem resolveAssoc_cached (d : RtpDemuxer) (p : RtpPacketReceived)
    (h : p.ssrc ∈ d.processed_ssrcs) : d.ResolveAssociations p = (d, []) := by
  unfold ResolveAssociations
  simp [h]

theorem resolveAssoc_ssrc_sinks (d : RtpDemuxer) (p : RtpPacketReceived)
    (h : p.ssrc ∉ d.processed_ssrcs) :
    (d.ResolveAssociations p).1.ssrc_sinks =
      (d.ResolveRsidToSsrcAssociations p).1.ssrc_sinks := by
  unfold ResolveAssociations
  simp only [h, if_false, ite_false]
  split
  · rfl
  · split <;> rfl

theorem resolveAssoc_rsid_sinks (d : RtpDemuxer) (p : RtpPacketReceived)
    (h : p.ssrc ∉ d.processed_ssrcs) :
    (d.ResolveAssociations p).1.rsid_sinks =
      (d.ResolveRsidToSsrcAssociations p).1.rsid_sinks := by
  unfold ResolveAssociations
  simp only [h, if_false, ite_false]
  split
  · rfl
  · split <;> rfl

theorem resolveAssoc_observers (d : RtpDemuxer) (p : RtpPacketReceived) :
    (d.ResolveAssociations p).1.rsid_resolution_observers =
      d.rsid_resolution_observers := by
  unfold ResolveAssociations
  split
  · rfl
  · dsimp only
    split
    · simp [resolveRsid_observers]
    · split <;> simp [resolveRsid_observers]

theorem resolveAssoc_events (d : RtpDemuxer) (p : RtpPacketReceived)
    (h : p.ssrc ∉ d.processed_ssrcs) :
    (d.ResolveAssociations p).2 = (d.ResolveRsidToSsrcAssociations p).2 ∨
      (d.ResolveAssociations p).2 =
        (d.ResolveRsidToSsrcAssociations p).2 ++ [Event.capacityWarning] := by
  unfold ResolveAssociations
  simp only [h, if_false, ite_false]
  split
  · exact Or.inl rfl
  · split
    · exact Or.inr rfl
    · exact Or.inl rfl

end RtpDemuxer

/-- The observer notification carried by an event, if any. -/
def Event.notification : Event → Option (Observer × String × Nat)
  | Event.rsidResolved o r s => some (o, r, s)
  | _ => none

/-- The `OnRsidResolved(rsid, ssrc)` calls of a trace, in order. -/
def notificationsOf (evs : List Event) : List (Observer × String × Nat) :=
  evs.filterMap Event.notification

theorem notificationsOf_append (l1 l2 : List Event) :
    notificationsOf (l1 ++ l2) = notificationsOf l1 ++ notificationsOf l2 :=
  List.filterMap_append l1 l2 Event.notification

theorem notificationsOf_assocRecorded (s : Nat) (l : List (String × Sink)) :
    notificationsOf (l.map (fun e => Event.assocRecorded s e.2)) = [] := by
  unfold notificationsOf
  rw [List.filterMap_map, List.filterMap_eq_nil_iff]
  intro a _
  rfl

theorem notificationsOf_delivered (l : List (Nat × Sink)) :
    notificationsOf (l.map (fun e => Event.packetDelivered e.2)) = [] := by
  unfold notificationsOf
  rw [List.filterMap_map, List.filterMap_eq_nil_iff]
  intro a _
  rfl

theorem notificationsOf_observers (obs : List Observer) (R : String)
    (s : Nat) :
    notificationsOf (obs.map (fun o => Event.rsidResolved o R s)) =
      obs.map (fun o => (o, R, s)) := by
  induction obs with
  | nil => rfl
  | cons hd tl ih =>
      simp only [List.map_cons, notificationsOf, List.filterMap_cons] at ih ⊢
      rw [ih]
      rfl

theorem notificationsOf_erased (R : String) :
    notificationsOf [Event.rsidErased R] = [] := rfl

theorem notificationsOf_warning :
    notificationsOf [Event.capacityWarning] = [] := rfl

namespace RtpDemuxer

/-! ### Lemmas about `OnRtpPacket` -/

theorem onPacket_st (d : RtpDemuxer) (p : RtpPacketReceived) :
    (d.OnRtpPacket p).st = (d.ResolveAssociations p).1 := rfl

theorem onPacket_events (d : RtpDemuxer) (p : RtpPacketReceived) :
    (d.OnRtpPacket p).events =
      (d.ResolveAssociations p).2 ++
        ((d.ResolveAssociations p).1.ssrc_sinks.filter
            (fun e => e.1 == p.ssrc)).map
          (fun e => Event.packetDelivered e.2) := rfl

theorem onPacket_ok (d : RtpDemuxer) (p : RtpPacketReceived) :
    (d.OnRtpPacket p).ok =
      !((d.ResolveAssociations p).1.ssrc_sinks.filter
          (fun e => e.1 == p.ssrc)).isEmpty := rfl

theorem filter_key_nonempty {l : List (Nat × Sink)} {s : Nat} :
    (!(l.filter (fun e => e.1 == s)).isEmpty) = true ↔
      ∃ k, (s, k) ∈ l := by
  rw [Bool.not_eq_true', List.isEmpty_eq_false_iff_exists_mem]
  constructor
  · rintro ⟨⟨a, b⟩, hm⟩
    rw [List.mem_filter] at hm
    obtain ⟨hm, he⟩ := hm
    simp only [beq_iff_eq] at he
    subst he
    exact ⟨b, hm⟩
  · rintro ⟨k, hm⟩
    exact ⟨(s, k), List.mem_filter.mpr ⟨hm, by simp⟩⟩

theorem resolveAssoc_no_delivered (d : RtpDemuxer) (p : RtpPacketReceived)
    (k : Sink) : Event.packetDelivered k ∉ (d.ResolveAssociations p).2 := by
  by_cases hc : p.ssrc ∈ d.processed_ssrcs
  · simp [resolveAssoc_cached d p hc]
  · rcases resolveAssoc_events d p hc with he | he <;> rw [he] <;>
      match hr : p.rsid with
      | none => simp [resolveRsid_none d p hr]
      | some R => simp [resolveRsid_some_snd d p R hr]

end RtpDemuxer

open RtpDemuxer

/-- Claim C4: `OnRtpPacket` first runs the resolution protocol for the
packet's SSRC, then delivers the packet to every sink currently associated
with that SSRC (in association order, after all resolution events), and
returns `true` iff that sink set is non-empty; when it returns `false` no
sink receives the packet. -/
theorem claim_C4_onPacket_dispatch (d : RtpDemuxer) (p : RtpPacketReceived) :
    (d.OnRtpPacket p).st = (d.ResolveAssociations p).1
    ∧ (d.OnRtpPacket p).events =
        (d.ResolveAssociations p).2 ++
          (((d.OnRtpPacket p).st.ssrc_sinks.filter
              (fun e => e.1 == p.ssrc)).map
            (fun e => Event.packetDelivered e.2))
    ∧ ((d.OnRtpPacket p).ok = true ↔
        ∃ k, (p.ssrc, k) ∈ (d.OnRtpPacket p).st.ssrc_sinks)
    ∧ ((d.OnRtpPacket p).ok = false →
        ∀ k, Event.packetDelivered k ∉ (d.OnRtpPacket p).events) := by
  refine ⟨onPacket_st d p, onPacket_events d p, ?_, ?_⟩
  · rw [onPacket_ok, onPacket_st]
    exact filter_key_nonempty
  · intro hok k hmem
    rw [onPacket_events] at hmem
    rcases List.mem_append.mp hmem with hm | hm
    · exact resolveAssoc_no_delivered d p k hm
    · rw [onPacket_ok] at hok
      rw [Bool.not_eq_false', List.isEmpty_iff] at hok
      rw [hok] at hm
      simp at hm

/-- Claim C4 witness: the spec's direct-routing example — after
`AddSink(100, sinkA)` a packet with SSRC 100 is delivered and `OnPacket`
returns true. -/
theorem claim_C4_witness :
    ((RtpDemuxer.initial.AddSinkSsrc 100 1).OnRtpPacket
        ⟨100, none⟩).ok = true ∧
    Event.packetDelivered 1 ∈
      ((RtpDemuxer.initial.AddSinkSsrc 100 1).OnRtpPacket
        ⟨100, none⟩).events := by
  have h := claim_C4_onPacket_dispatch (RtpDemuxer.initial.AddSinkSsrc 100 1)
    ⟨100, none⟩
  refine ⟨h.2.2.1.mpr ⟨1, ?_⟩, ?_⟩
  · decide
  · decide

/-- Claim C5: `AddSink(ssrc, sink)` is idempotent — two identical calls
leave exactly one (ssrc, sink) association — and it never disturbs the
other associations of the table. -/
theorem claim_C5_addSink_idempotent (d : RtpDemuxer) (ssrc : Nat)
    (sink : Sink) :
    ((d.AddSinkSsrc ssrc sink).AddSinkSsrc ssrc sink =
        d.AddSinkSsrc ssrc sink)
    ∧ ((ssrc, sink) ∉ d.ssrc_sinks →
        ((d.AddSinkSsrc ssrc sink).AddSinkSsrc ssrc sink).ssrc_sinks.count
            (ssrc, sink) = 1)
    ∧ (∀ x ∈ d.ssrc_sinks, x ∈ (d.AddSinkSsrc ssrc sink).ssrc_sinks) := by
  refine ⟨record_of_mem _ (record_mem_self d ssrc sink), ?_, ?_⟩
  · intro h
    unfold AddSinkSsrc
    rw [record_of_mem _ (record_mem_self d ssrc sink)]
    rw [record_of_not_mem d h]
    simp only [List.count_append]
    rw [List.count_eq_zero.mpr h]
    simp
  · intro x hx
    exact record_mono ssrc sink hx

/-- Claim C5 witness: two identical `AddSink(100, sinkA)` calls on a fresh
demuxer leave exactly one association. -/
theorem claim_C5_witness :
    ((RtpDemuxer.initial.AddSinkSsrc 100 1).AddSinkSsrc 100 1).ssrc_sinks.count
        (100, 1) = 1 :=
  (claim_C5_addSink_idempotent RtpDemuxer.initial 100 1).2.1 (by decide)

/-- Claim C7: for a legal RSID and a not-yet-registered (rsid, sink) pair,
`AddSink(rsid, sink)` appends the pair to the RSID table and clears the
resolved-SSRC cache; an illegal RSID or a duplicate pair is a fatal
assertion (modelled as `none`). -/
theorem claim_C7_addSinkRsid (d : RtpDemuxer) (rsid : String) (sink : Sink) :
    (StreamId.IsLegalName rsid = true →
      ¬ MultimapAssociationExists d.rsid_sinks rsid sink →
      d.AddSinkRsid rsid sink =
        some { d with
                rsid_sinks := d.rsid_sinks ++ [(rsid, sink)]
                processed_ssrcs := ∅ })
    ∧ ((StreamId.IsLegalName rsid = false ∨
          MultimapAssociationExists d.rsid_sinks rsid sink) →
        d.AddSinkRsid rsid sink = none) := by
  constructor
  · intro h1 h2
    unfold AddSinkRsid
    rw [if_pos ⟨h1, h2⟩]
  · intro h
    unfold AddSinkRsid
    rw [if_neg]
    rintro ⟨hl, hn⟩
    rcases h with h | h
    · rw [hl] at h
      cases h
    · exact hn h

/-- Claim C7 witness: `AddSink("stream1", sinkB)` on a fresh demuxer
registers the pair and leaves the cache empty. -/
theorem claim_C7_witness :
    RtpDemuxer.initial.AddSinkRsid "stream1" 1 =
      some { RtpDemuxer.initial with
              rsid_sinks := RtpDemuxer.initial.rsid_sinks ++ [("stream1", 1)]
              processed_ssrcs := ∅ } :=
  (claim_C7_addSinkRsid RtpDemuxer.initial "stream1" 1).1 (by decide)
    (by decide)

/-- Claim C6: `RemoveSink(sink)` removes every association involving the
sink from both the SSRC- and the RSID-keyed table (and only those),
returns true iff at least one entry was removed, and a second call on the
same sink removes nothing and returns false. -/
theorem claim_C6_removeSink (d : RtpDemuxer) (sink : Sink) :
    (∀ key, (key, sink) ∉ (d.RemoveSink sink).1.ssrc_sinks)
    ∧ (∀ key, (key, sink) ∉ (d.RemoveSink sink).1.rsid_sinks)
    ∧ (∀ x ∈ d.ssrc_sinks, x.2 ≠ sink → x ∈ (d.RemoveSink sink).1.ssrc_sinks)
    ∧ (∀ x ∈ d.rsid_sinks, x.2 ≠ sink → x ∈ (d.RemoveSink sink).1.rsid_sinks)
    ∧ ((d.RemoveSink sink).2 = true ↔
        (∃ x ∈ d.ssrc_sinks, x.2 = sink) ∨ (∃ x ∈ d.rsid_sinks, x.2 = sink))
    ∧ (d.RemoveSink sink).1.RemoveSink sink = ((d.RemoveSink sink).1, false) := by
  obtain ⟨ss, rs, ps, obs, fl⟩ := d
  unfold RemoveSink RemoveFromMultimapByValue
  refine ⟨?_, ?_, ?_, ?_, ?_, ?_⟩
  · intro key hmem
    rw [List.mem_filter] at hmem
    simp at hmem
  · intro key hmem
    rw [List.mem_filter] at hmem
    simp at hmem
  · intro x hx hne
    exact List.mem_filter.mpr ⟨hx, by simpa using hne⟩
  · intro x hx hne
    exact List.mem_filter.mpr ⟨hx, by simpa using hne⟩
  · simp only [decide_eq_true_eq, gt_iff_lt, ← List.countP_eq_length_filter]
    rw [add_pos_iff, List.countP_pos_iff, List.countP_pos_iff]
    simp
  · simp [List.filter_filter]

/-- Claim C6 witness: a sink registered under both an SSRC and an RSID is
fully unregistered by one `RemoveSink`, which returns true; the second call
returns false. -/
theorem claim_C6_witness :
    (({ RtpDemuxer.initial with
          ssrc_sinks := [(100, 1)]
          rsid_sinks := [("s", 1)] } : RtpDemuxer).RemoveSink 1).2 = true
    ∧ (({ RtpDemuxer.initial with
            ssrc_sinks := [(100, 1)]
            rsid_sinks := [("s", 1)] } : RtpDemuxer).RemoveSink 1).1.RemoveSink 1 =
        ((({ RtpDemuxer.initial with
               ssrc_sinks := [(100, 1)]
               rsid_sinks := [("s", 1)] } : RtpDemuxer).RemoveSink 1).1,
         false) :=
  ⟨(claim_C6_removeSink
      { RtpDemuxer.initial with
          ssrc_sinks := [(100, 1)]
          rsid_sinks := [("s", 1)] } 1).2.2.2.2.1.mpr
      (Or.inl ⟨(100, 1), by decide, rfl⟩),
   (claim_C6_removeSink
      { RtpDemuxer.initial with
          ssrc_sinks := [(100, 1)]
          rsid_sinks := [("s", 1)] } 1).2.2.2.2.2⟩

/-- Claim C8: when the packet's SSRC is already in the resolved-SSRC cache,
`OnRtpPacket` skips resolution entirely — the whole state (both tables, the
cache and the warn-once flag) is unchanged, no observer is notified — and
the packet is still delivered to the sinks registered for that SSRC. -/
theorem claim_C8_fast_path (d : RtpDemuxer) (p : RtpPacketReceived)
    (h : p.ssrc ∈ d.processed_ssrcs) :
    (d.OnRtpPacket p).st = d
    ∧ (d.OnRtpPacket p).events =
        (d.ssrc_sinks.filter (fun e => e.1 == p.ssrc)).map
          (fun e => Event.packetDelivered e.2)
    ∧ notificationsOf (d.OnRtpPacket p).events = []
    ∧ ((d.OnRtpPacket p).ok = true ↔ ∃ k, (p.ssrc, k) ∈ d.ssrc_sinks) := by
  have hres := RtpDemuxer.resolveAssoc_cached d p h
  have hev : (d.OnRtpPacket p).events =
      (d.ssrc_sinks.filter (fun e => e.1 == p.ssrc)).map
        (fun e => Event.packetDelivered e.2) := by
    rw [RtpDemuxer.onPacket_events, hres]
    rfl
  refine ⟨?_, hev, ?_, ?_⟩
  · rw [RtpDemuxer.onPacket_st, hres]
  · rw [hev, notificationsOf_delivered]
  · rw [RtpDemuxer.onPacket_ok, hres]
    exact RtpDemuxer.filter_key_nonempty

/-- Claim C8 witness: a cached SSRC is delivered without any state change or
notification. -/
theorem claim_C8_witness :
    (({ RtpDemuxer.initial with
          ssrc_sinks := [(100, 1)]
          processed_ssrcs := {100} } : RtpDemuxer).OnRtpPacket
        ⟨100, some "s"⟩).st =
      { RtpDemuxer.initial with
          ssrc_sinks := [(100, 1)]
          processed_ssrcs := {100} }
    ∧ notificationsOf
        (({ RtpDemuxer.initial with
              ssrc_sinks := [(100, 1)]
              processed_ssrcs := {100} } : RtpDemuxer).OnRtpPacket
            ⟨100, some "s"⟩).events = [] :=
  ⟨(claim_C8_fast_path _ _ (by decide)).1,
   (claim_C8_fast_path _ _ (by decide)).2.2.1⟩

/-- Claim C9: `RegisterRsidResolutionObserver` appends a not-yet-registered
observer to the end of the notification list and clears the resolved-SSRC
cache, so the very next RSID-tagged packet re-runs resolution and notifies
the late joiner; registering a duplicate is a fatal assertion.
`DeregisterRsidResolutionObserver` removes exactly that observer (under the
duplicate-free registration contract) and deregistering an unregistered
observer is a fatal assertion. -/
theorem claim_C9_observer_registration (d : RtpDemuxer) (o : Observer)
    (p : RtpPacketReceived) (R : String) :
    (o ∉ d.rsid_resolution_observers →
      d.RegisterRsidResolutionObserver o =
        some { d with
                rsid_resolution_observers :=
                  d.rsid_resolution_observers ++ [o]
                processed_ssrcs := ∅ })
    ∧ (o ∈ d.rsid_resolution_observers →
        d.RegisterRsidResolutionObserver o = none)
    ∧ (o ∈ d.rsid_resolution_observers →
        d.DeregisterRsidResolutionObserver o =
          some { d with
                  rsid_resolution_observers :=
                    d.rsid_resolution_observers.erase o })
    ∧ (o ∉ d.rsid_resolution_observers →
        d.DeregisterRsidResolutionObserver o = none)
    ∧ (d.rsid_resolution_observers.Nodup →
        ∀ o', o' ∈ d.rsid_resolution_observers.erase o ↔
          (o' ≠ o ∧ o' ∈ d.rsid_resolution_observers))
    ∧ (∀ d', d.RegisterRsidResolutionObserver o = some d' →
        p.rsid = some R →
        Event.rsidResolved o R p.ssrc ∈ (d'.OnRtpPacket p).events) := by
  refine ⟨?_, ?_, ?_, ?_, ?_, ?_⟩
  · intro h
    unfold RegisterRsidResolutionObserver
    rw [if_neg h]
  · intro h
    unfold RegisterRsidResolutionObserver
    rw [if_pos h]
  · intro h
    unfold DeregisterRsidResolutionObserver
    rw [if_pos h]
  · intro h
    unfold DeregisterRsidResolutionObserver
    rw [if_neg h]
  · intro hnd o'
    exact hnd.mem_erase_iff
  · intro d' hreg hr
    unfold RegisterRsidResolutionObserver at hreg
    split at hreg
    · cases hreg
    · rename_i hno
      rw [Option.some.injEq] at hreg
      subst hreg
      set d' : RtpDemuxer :=
        { d with
            rsid_resolution_observers := d.rsid_resolution_observers ++ [o]
            processed_ssrcs := ∅ } with hd'
      have hc : p.ssrc ∉ d'.processed_ssrcs := by
        rw [hd']
        simp
      rw [RtpDemuxer.onPacket_events]
      apply List.mem_append_left
      rcases RtpDemuxer.resolveAssoc_events d' p hc with he | he <;> rw [he]
      · rw [RtpDemuxer.resolveRsid_some_snd d' p R hr]
        apply List.mem_append_left
        apply List.mem_append_right
        apply List.mem_map_of_mem
        rw [hd']
        simp
      · apply List.mem_append_left
        rw [RtpDemuxer.resolveRsid_some_snd d' p R hr]
        apply List.mem_append_left
        apply List.mem_append_right
        apply List.mem_map_of_mem
        rw [hd']
        simp

/-- Claim C9 witness: registering an observer on a fresh demuxer appends it
and clears the cache; the next RSID-tagged packet notifies it. -/
theorem claim_C9_witness :
    RtpDemuxer.initial.RegisterRsidResolutionObserver 7 =
      some { RtpDemuxer.initial with
              rsid_resolution_observers :=
                RtpDemuxer.initial.rsid_resolution_observers ++ [7]
              processed_ssrcs := ∅ } :=
  (claim_C9_observer_registration RtpDemuxer.initial 7 ⟨300, some "x"⟩ "x").1
    (by decide)

/-- Claim C10: on an uncached, RSID-tagged packet every registered observer
is notified with (rsid, ssrc) — regardless of how many (possibly zero)
sinks are registered under that RSID, in particular also when the RSID's
table entries were consumed by an earlier resolution. -/
theorem claim_C10_notify_without_sinks (d : RtpDemuxer)
    (p : RtpPacketReceived) (R : String) (h1 : p.ssrc ∉ d.processed_ssrcs)
    (h2 : p.rsid = some R) :
    notificationsOf (d.OnRtpPacket p).events =
      d.rsid_resolution_observers.map (fun o => (o, R, p.ssrc)) := by
  rw [RtpDemuxer.onPacket_events, notificationsOf_append,
    notificationsOf_delivered, List.append_nil]
  rcases RtpDemuxer.resolveAssoc_events d p h1 with he | he <;> rw [he]
  · rw [RtpDemuxer.resolveRsid_some_snd d p R h2, notificationsOf_append,
      notificationsOf_append, notificationsOf_assocRecorded,
      notificationsOf_observers, notificationsOf_erased]
    simp
  · rw [notificationsOf_append, notificationsOf_warning, List.append_nil,
      RtpDemuxer.resolveRsid_some_snd d p R h2, notificationsOf_append,
      notificationsOf_append, notificationsOf_assocRecorded,
      notificationsOf_observers, notificationsOf_erased]
    simp

/-- Claim C10 witness: with zero sinks registered under "s", the single
registered observer is still notified with ("s", 300). -/
theorem claim_C10_witness :
    notificationsOf
        (({ RtpDemuxer.initial with
              rsid_resolution_observers := [5] } : RtpDemuxer).OnRtpPacket
            ⟨300, some "s"⟩).events = [(5, "s", 300)] :=
  claim_C10_notify_without_sinks
    { RtpDemuxer.initial with rsid_resolution_observers := [5] }
    ⟨300, some "s"⟩ "s" (by decide) rfl

/-- An uncached packet carrying RSID `R` leaves no entry keyed `R` in the
RSID table. -/
theorem onPacket_consumes_rsid (d : RtpDemuxer) (p : RtpPacketReceived)
    (R : String) (h1 : p.ssrc ∉ d.processed_ssrcs) (h2 : p.rsid = some R) :
    ∀ k, (R, k) ∉ (d.OnRtpPacket p).st.rsid_sinks := by
  intro k hk
  rw [RtpDemuxer.onPacket_st] at hk
  rw [RtpDemuxer.resolveAssoc_rsid_sinks d p h1,
    RtpDemuxer.resolveRsid_some_fst d p R h2] at hk
  have := List.mem_filter.mp hk
  simp at this

/-- Claim C1: for an uncached packet carrying RSID `R`, the execution trace
shows — in this order and before anything else — (1) one de-duplicating
SSRC insert per sink currently registered under `R`, (2) one notification
per registered observer, in registration order, with (R, S), and (3) the
removal of every entry keyed by `R`; afterwards every sink that was
registered under `R` is associated with `S` and no entry keyed `R`
remains. -/
theorem claim_C1_resolution_sequence (d : RtpDemuxer) (p : RtpPacketReceived)
    (R : String) (h1 : p.ssrc ∉ d.processed_ssrcs) (h2 : p.rsid = some R) :
    (∃ tail,
      (d.OnRtpPacket p).events =
        ((d.rsid_sinks.filter (fun e => e.1 == R)).map
            (fun e => Event.assocRecorded p.ssrc e.2)
          ++ d.rsid_resolution_observers.map
               (fun o => Event.rsidResolved o R p.ssrc)
          ++ [Event.rsidErased R]) ++ tail
      ∧ (∀ o rs s, Event.rsidResolved o rs s ∉ tail)
      ∧ (∀ s k, Event.assocRecorded s k ∉ tail)
      ∧ (∀ rs, Event.rsidErased rs ∉ tail))
    ∧ (∀ k, (R, k) ∈ d.rsid_sinks →
        (p.ssrc, k) ∈ (d.OnRtpPacket p).st.ssrc_sinks)
    ∧ (∀ k, (R, k) ∉ (d.OnRtpPacket p).st.rsid_sinks) := by
  refine ⟨?_, ?_, ?_⟩
  · rw [RtpDemuxer.onPacket_events]
    rcases RtpDemuxer.resolveAssoc_events d p h1 with he | he <;> rw [he] <;>
      rw [RtpDemuxer.resolveRsid_some_snd d p R h2]
    · refine ⟨_, by rw [List.append_assoc], ?_, ?_, ?_⟩ <;> intros <;> simp
    · refine ⟨[Event.capacityWarning] ++
          ((d.ResolveAssociations p).1.ssrc_sinks.filter
              (fun e => e.1 == p.ssrc)).map
            (fun e => Event.packetDelivered e.2), ?_, ?_, ?_, ?_⟩
      · rw [List.append_assoc]
      · intros; simp
      · intros; simp
      · intros; simp
  · intro k hk
    have hmem : ((R, k) : String × Sink) ∈
        d.rsid_sinks.filter (fun e => e.1 == R) :=
      List.mem_filter.mpr ⟨hk, by simp⟩
    have h3 := RtpDemuxer.recordAll_mem (d := d) p.ssrc hmem
    rw [RtpDemuxer.onPacket_st, RtpDemuxer.resolveAssoc_ssrc_sinks d p h1,
      RtpDemuxer.resolveRsid_some_fst d p R h2]
    exact h3
  · exact onPacket_consumes_rsid d p R h1 h2

/-- Claim C1 witness: the spec's RSID-promotion scenario — sink 2 under
"stream1", observer 5 registered; the resolving packet (SSRC 300) creates
the (300, 2) association and leaves no "stream1" entry. -/
theorem claim_C1_witness :
    (300, 2) ∈
      (({ RtpDemuxer.initial with
            rsid_sinks := [("stream1", 2)]
            rsid_resolution_observers := [5] } : RtpDemuxer).OnRtpPacket
          ⟨300, some "stream1"⟩).st.ssrc_sinks
    ∧ ∀ k, ("stream1", k) ∉
        (({ RtpDemuxer.initial with
              rsid_sinks := [("stream1", 2)]
              rsid_resolution_observers := [5] } : RtpDemuxer).OnRtpPacket
            ⟨300, some "stream1"⟩).st.rsid_sinks :=
  ⟨(claim_C1_resolution_sequence
      { RtpDemuxer.initial with
          rsid_sinks := [("stream1", 2)]
          rsid_resolution_observers := [5] }
      ⟨300, some "stream1"⟩ "stream1" (by decide) rfl).2.1 2 (by decide),
   (claim_C1_resolution_sequence
      { RtpDemuxer.initial with
          rsid_sinks := [("stream1", 2)]
          rsid_resolution_observers := [5] }
      ⟨300, some "stream1"⟩ "stream1" (by decide) rfl).2.2⟩

/-- Claim C2: (a) an uncached RSID-tagged packet consumes its RSID — no
entry keyed by it survives; (b) once no entry is keyed by `R`, a packet
carrying `R` creates no association at all (`ssrc_sinks_` is unchanged);
(c) absence of `R`-keyed entries is preserved by every public call other
than a new `AddSink(R, sink)` registration — so any later packet carrying
`R`, even with a different SSRC, never creates a new association. -/
theorem claim_C2_one_shot_resolution (d : RtpDemuxer)
    (p : RtpPacketReceived) (R : String) :
    ((p.ssrc ∉ d.processed_ssrcs → p.rsid = some R →
        ∀ k, (R, k) ∉ (d.OnRtpPacket p).st.rsid_sinks))
    ∧ ((∀ k, (R, k) ∉ d.rsid_sinks) → p.rsid = some R →
        (d.OnRtpPacket p).st.ssrc_sinks = d.ssrc_sinks)
    ∧ (∀ op d', (∀ k, op ≠ Op.addSinkRsid R k) → applyOp d op = some d' →
        (∀ k, (R, k) ∉ d.rsid_sinks) → ∀ k, (R, k) ∉ d'.rsid_sinks) := by
  refine ⟨?_, ?_, ?_⟩
  · intro h1 h2 k
    exact onPacket_consumes_rsid d p R h1 h2 k
  · intro habs h2
    by_cases hc : p.ssrc ∈ d.processed_ssrcs
    · rw [RtpDemuxer.onPacket_st, RtpDemuxer.resolveAssoc_cached d p hc]
    · have hnil : d.rsid_sinks.filter (fun e => e.1 == R) = [] := by
        rw [List.filter_eq_nil_iff]
        rintro ⟨a, b⟩ hm hb
        simp only [beq_iff_eq] at hb
        subst hb
        exact habs b hm
      rw [RtpDemuxer.onPacket_st, RtpDemuxer.resolveAssoc_ssrc_sinks d p hc,
        RtpDemuxer.resolveRsid_some_fst d p R h2, hnil]
      rfl
  · intro op d' hop hstep habs k
    cases op with
    | addSinkSsrc s sk =>
        simp only [applyOp] at hstep
        rw [Option.some.injEq] at hstep
        subst hstep
        rw [RtpDemuxer.AddSinkSsrc, RtpDemuxer.record_rsid_sinks]
        exact habs k
    | addSinkRsid rs sk =>
        simp only [applyOp] at hstep
        unfold RtpDemuxer.AddSinkRsid at hstep
        split at hstep
        · rw [Option.some.injEq] at hstep
          subst hstep
          intro hmem
          rcases List.mem_append.mp hmem with hm | hm
          · exact habs k hm
          · rw [List.mem_singleton, Prod.mk.injEq] at hm
            exact hop sk (by rw [hm.1])
        · cases hstep
    | removeSink sk =>
        simp only [applyOp] at hstep
        rw [Option.some.injEq] at hstep
        subst hstep
        intro hmem
        exact habs k (List.mem_filter.mp hmem).1
    | onRtpPacket q =>
        simp only [applyOp] at hstep
        rw [Option.some.injEq] at hstep
        subst hstep
        rw [RtpDemuxer.onPacket_st]
        by_cases hc : q.ssrc ∈ d.processed_ssrcs
        · rw [RtpDemuxer.resolveAssoc_cached d q hc]
          exact habs k
        · rw [RtpDemuxer.resolveAssoc_rsid_sinks d q hc]
          match hr : q.rsid with
          | none =>
              rw [RtpDemuxer.resolveRsid_none d q hr]
              exact habs k
          | some R' =>
              rw [RtpDemuxer.resolveRsid_some_fst d q R' hr]
              intro hmem
              exact habs k (List.mem_filter.mp hmem).1
    | registerObserver o =>
        simp only [applyOp] at hstep
        unfold RtpDemuxer.RegisterRsidResolutionObserver at hstep
        split at hstep
        · cases hstep
        · rw [Option.some.injEq] at hstep
          subst hstep
          exact habs k
    | deregisterObserver o =>
        simp only [applyOp] at hstep
        unfold RtpDemuxer.DeregisterRsidResolutionObserver at hstep
        split at hstep
        · rw [Option.some.injEq] at hstep
          subst hstep
          exact habs k
        · cases hstep

/-- Claim C2 witness: the spec's scenario — after "stream1" resolved to
SSRC 300 and was consumed, a second packet with RSID "stream1" and SSRC 400
creates no new association. -/
theorem claim_C2_witness :
    (({ RtpDemuxer.initial with
          ssrc_sinks := [(300, 2)]
          processed_ssrcs := {300} } : RtpDemuxer).OnRtpPacket
        ⟨400, some "stream1"⟩).st.ssrc_sinks = [(300, 2)] :=
  (claim_C2_one_shot_resolution
      { RtpDemuxer.initial with
          ssrc_sinks := [(300, 2)]
          processed_ssrcs := {300} }
      ⟨400, some "stream1"⟩ "stream1").2.1
    (by intro k; simp [RtpDemuxer.initial]) rfl

/-! ### Capacity and warn-once lemmas for the resolved-SSRC cache -/

namespace RtpDemuxer

theorem resolveAssoc_card_le (d : RtpDemuxer) (p : RtpPacketReceived)
    (h : d.processed_ssrcs.card ≤ kMaxProcessedSsrcs) :
    (d.ResolveAssociations p).1.processed_ssrcs.card ≤ kMaxProcessedSsrcs := by
  unfold ResolveAssociations
  split
  · exact h
  · dsimp only
    split
    · next hlt =>
        exact le_trans (Finset.card_insert_le _ _) (Nat.succ_le_of_lt hlt)
    · split
      · show (d.ResolveRsidToSsrcAssociations p).1.processed_ssrcs.card ≤
          kMaxProcessedSsrcs
        rw [resolveRsid_processed]
        exact h
      · show (d.ResolveRsidToSsrcAssociations p).1.processed_ssrcs.card ≤
          kMaxProcessedSsrcs
        rw [resolveRsid_processed]
        exact h

theorem resolveAssoc_at_capacity (d : RtpDemuxer) (p : RtpPacketReceived)
    (h2 : ¬ d.processed_ssrcs.card < kMaxProcessedSsrcs) :
    (d.ResolveAssociations p).1.processed_ssrcs = d.processed_ssrcs := by
  unfold ResolveAssociations
  split
  · rfl
  · dsimp only
    split
    · next hlt =>
        rw [resolveRsid_processed] at hlt
        exact absurd hlt h2
    · split
      · show (d.ResolveRsidToSsrcAssociations p).1.processed_ssrcs =
          d.processed_ssrcs
        exact resolveRsid_processed d p
      · show (d.ResolveRsidToSsrcAssociations p).1.processed_ssrcs =
          d.processed_ssrcs
        exact resolveRsid_processed d p

theorem resolveAssoc_flag_mono (d : RtpDemuxer) (p : RtpPacketReceived)
    (h : d.logged_max_processed_ssrcs_exceeded = true) :
    (d.ResolveAssociations p).1.logged_max_processed_ssrcs_exceeded = true := by
  unfold ResolveAssociations
  split
  · exact h
  · dsimp only
    split
    · show (d.ResolveRsidToSsrcAssociations p).1.logged_max_processed_ssrcs_exceeded = true
      rw [resolveRsid_flag]
      exact h
    · split
      · rfl
      · show (d.ResolveRsidToSsrcAssociations p).1.logged_max_processed_ssrcs_exceeded = true
        rw [resolveRsid_flag]
        exact h

theorem resolveRsid_no_warning (d : RtpDemuxer) (p : RtpPacketReceived) :
    Event.capacityWarning ∉ (d.ResolveRsidToSsrcAssociations p).2 := by
  match hr : p.rsid with
  | none => simp [resolveRsid_none d p hr]
  | some R => simp [resolveRsid_some_snd d p R hr]

theorem onPacket_warning_iff (d : RtpDemuxer) (p : RtpPacketReceived) :
    Event.capacityWarning ∈ (d.OnRtpPacket p).events ↔
      (p.ssrc ∉ d.processed_ssrcs ∧
        ¬ d.processed_ssrcs.card < kMaxProcessedSsrcs ∧
        d.logged_max_processed_ssrcs_exceeded = false) := by
  rw [onPacket_events, List.mem_append]
  have hdel : Event.capacityWarning ∉
      ((d.ResolveAssociations p).1.ssrc_sinks.filter
          (fun e => e.1 == p.ssrc)).map
        (fun e => Event.packetDelivered e.2) := by
    simp
  by_cases hc : p.ssrc ∈ d.processed_ssrcs
  · rw [resolveAssoc_cached d p hc]
    simp [hc, hdel]
  · unfold ResolveAssociations
    rw [if_neg hc]
    dsimp only
    split
    · next hlt =>
        rw [resolveRsid_processed] at hlt
        simp [hdel, resolveRsid_no_warning d p, hlt]
    · next hge =>
        rw [resolveRsid_processed] at hge
        split
        · next hfl =>
            rw [Bool.not_eq_true', resolveRsid_flag] at hfl
            simp [hdel, hc, hge, hfl]
        · next hfl =>
            rw [Bool.not_eq_true', resolveRsid_flag] at hfl
            cases hb : d.logged_max_processed_ssrcs_exceeded with
            | false => exact absurd hb hfl
            | true => simp [hdel, resolveRsid_no_warning d p, hb]

theorem onPacket_warning_flag (d : RtpDemuxer) (p : RtpPacketReceived)
    (h : Event.capacityWarning ∈ (d.OnRtpPacket p).events) :
    (d.OnRtpPacket p).st.logged_max_processed_ssrcs_exceeded = true := by
  obtain ⟨hc, hge, hfl⟩ := (onPacket_warning_iff d p).mp h
  rw [onPacket_st]
  unfold ResolveAssociations
  rw [if_neg hc]
  dsimp only
  split
  · next hlt =>
      rw [resolveRsid_processed] at hlt
      exact absurd hlt hge
  · split
    · rfl
    · next hfl2 =>
        rw [Bool.not_eq_true', resolveRsid_flag] at hfl2
        exact absurd hfl hfl2

theorem applyOp_card {d d' : RtpDemuxer} (op : Op)
    (h : applyOp d op = some d')
    (hc : d.processed_ssrcs.card ≤ kMaxProcessedSsrcs) :
    d'.processed_ssrcs.card ≤ kMaxProcessedSsrcs := by
  cases op with
  | addSinkSsrc s sk =>
      simp only [applyOp] at h
      rw [Option.some.injEq] at h
      subst h
      rw [AddSinkSsrc, record_processed]
      exact hc
  | addSinkRsid rs sk =>
      simp only [applyOp] at h
      unfold AddSinkRsid at h
      split at h
      · rw [Option.some.injEq] at h
        subst h
        simp
      · cases h
  | removeSink sk =>
      simp only [applyOp] at h
      rw [Option.some.injEq] at h
      subst h
      exact hc
  | onRtpPacket q =>
      simp only [applyOp] at h
      rw [Option.some.injEq] at h
      subst h
      rw [onPacket_st]
      exact resolveAssoc_card_le d q hc
  | registerObserver o =>
      simp only [applyOp] at h
      unfold RegisterRsidResolutionObserver at h
      split at h
      · cases h
      · rw [Option.some.injEq] at h
        subst h
        simp
  | deregisterObserver o =>
      simp only [applyOp] at h
      unfold DeregisterRsidResolutionObserver at h
      split at h
      · rw [Option.some.injEq] at h
        subst h
        exact hc
      · cases h

theorem applyOp_flag {d d' : RtpDemuxer} (op : Op)
    (h : applyOp d op = some d')
    (hf : d.logged_max_processed_ssrcs_exceeded = true) :
    d'.logged_max_processed_ssrcs_exceeded = true := by
  cases op with
  | addSinkSsrc s sk =>
      simp only [applyOp] at h
      rw [Option.some.injEq] at h
      subst h
      rw [AddSinkSsrc, record_flag]
      exact hf
  | addSinkRsid rs sk =>
      simp only [applyOp] at h
      unfold AddSinkRsid at h
      split at h
      · rw [Option.some.injEq] at h
        subst h
        exact hf
      · cases h
  | removeSink sk =>
      simp only [applyOp] at h
      rw [Option.some.injEq] at h
      subst h
      exact hf
  | onRtpPacket q =>
      simp only [applyOp] at h
      rw [Option.some.injEq] at h
      subst h
      rw [onPacket_st]
      exact resolveAssoc_flag_mono d q hf
  | registerObserver o =>
      simp only [applyOp] at h
      unfold RegisterRsidResolutionObserver at h
      split at h
      · cases h
      · rw [Option.some.injEq] at h
        subst h
        exact hf
  | deregisterObserver o =>
      simp only [applyOp] at h
      unfold DeregisterRsidResolutionObserver at h
      split at h
      · rw [Option.some.injEq] at h
        subst h
        exact hf
      · cases h

end RtpDemuxer

theorem reachable_card_le {d : RtpDemuxer} (h : Reachable d) :
    d.processed_ssrcs.card ≤ kMaxProcessedSsrcs := by
  induction h with
  | init => simp [RtpDemuxer.initial, kMaxProcessedSsrcs]
  | step h hstep ih => exact RtpDemuxer.applyOp_card _ hstep ih

/-- Claim C3: in every reachable state the resolved-SSRC cache holds at
most `kMaxProcessedSsrcs = 1000` SSRCs; at capacity, processing a packet
with a new SSRC leaves the cache unchanged; the capacity warning is emitted
exactly when the cache is full, the SSRC is new and the warn-once flag is
still unset; emitting it sets the flag, and no public call ever resets
it. -/
theorem claim_C3_bounded_cache (d : RtpDemuxer) (p : RtpPacketReceived)
    (op : Op) (d' : RtpDemuxer) (h : Reachable d) :
    d.processed_ssrcs.card ≤ kMaxProcessedSsrcs
    ∧ (d.processed_ssrcs.card = kMaxProcessedSsrcs →
        (d.OnRtpPacket p).st.processed_ssrcs = d.processed_ssrcs)
    ∧ (Event.capacityWarning ∈ (d.OnRtpPacket p).events ↔
        (p.ssrc ∉ d.processed_ssrcs ∧
          ¬ d.processed_ssrcs.card < kMaxProcessedSsrcs ∧
          d.logged_max_processed_ssrcs_exceeded = false))
    ∧ (Event.capacityWarning ∈ (d.OnRtpPacket p).events →
        (d.OnRtpPacket p).st.logged_max_processed_ssrcs_exceeded = true)
    ∧ (applyOp d op = some d' →
        d.logged_max_processed_ssrcs_exceeded = true →
        d'.logged_max_processed_ssrcs_exceeded = true) := by
  refine ⟨reachable_card_le h, ?_, RtpDemuxer.onPacket_warning_iff d p,
    RtpDemuxer.onPacket_warning_flag d p, ?_⟩
  · intro hfull
    rw [RtpDemuxer.onPacket_st]
    exact RtpDemuxer.resolveAssoc_at_capacity d p (by rw [hfull]; exact lt_irrefl _)
  · intro hstep hf
    exact RtpDemuxer.applyOp_flag op hstep hf

/-- Claim C3 witness: the fresh demuxer is reachable and respects the
bound. -/
theorem claim_C3_witness :
    RtpDemuxer.initial.processed_ssrcs.card ≤ kMaxProcessedSsrcs :=
  (claim_C3_bounded_cache RtpDemuxer.initial ⟨1, none⟩ (Op.removeSink 0)
    RtpDemuxer.initial Reachable.init).1

end Webrtc
